import Mathlib

/-!
Verification of the TenderAPI service (`src/main.py`) against its
natural-language specification.

The development is a shallow embedding of the program: the pure parts of
`main.py` (date-window arithmetic, placement-way lookup, timestamp
formatting, header construction, row transformation) become Lean
functions; the effectful parts (HTTP requests to the TenderPlan API,
the Google-Sheets client, the streamed file download) are modelled by
passing in the observed behaviour of the external collaborator (the
sequence of page responses, the attachment response for each tender id,
the sheet contents, the download chunk stream) and by returning the
observable effects (appended rows, recorded error events, the response
body) explicitly.

Conventions used throughout:
* epoch instants are `Int` milliseconds, as in the TenderPlan API;
* `pytz` timezones are modelled by their fixed UTC offset in
  milliseconds (`Asia/Novosibirsk` = UTC+7, `Europe/Moscow` = UTC+3;
  neither zone has had DST since 2014);
* Python `datetime.date()` / floor arithmetic maps to `Int` `/`
  (Euclidean division, which is floor division for the positive
  divisors used here);
* Python exceptions that the source catches and converts into return
  values are modelled as ordinary branches; functions that the source
  guarantees never to raise are total Lean functions.
-/

set_option maxHeartbeats 1000000
set_option maxRecDepth 4000

namespace TenderAPI

/-! ## Error taxonomy (`ErrorType` enum, main.py lines 72-80) -/

/-- The `ErrorType` enum of `main.py`. -/
inductive ErrorType
  | tenderplanApiError
  | googleSheetsError
  | documentParseError
  | fileDownloadError
  | googleAuthError
  | pingError
  | unknownError
  | fileSizeError
deriving DecidableEq, Repr

/-- The `.value` string of each `ErrorType` member. -/
def ErrorType.value : ErrorType → String
  | .tenderplanApiError => "TenderPlan API Error"
  | .googleSheetsError => "Google Sheets Error"
  | .documentParseError => "Document Parse Error"
  | .fileDownloadError => "File Download Error"
  | .googleAuthError => "Google Authentication Error"
  | .pingError => "Ping Health Check Error"
  | .unknownError => "Unknown Error"
  | .fileSizeError => "File Size Error"

/-- One structured error event as recorded by
`ErrorNotificationManager.send_notification` (main.py lines 92-105).
The wall-clock `timestamp` field of the Python dict is omitted: it never
influences control flow and no claim mentions it.  `details` keeps the
context entries that the claims talk about (tender id, status code,
page). -/
structure ErrorEvent where
  errorType : ErrorType
  stage : String
  message : String
  details : List (String × String)
deriving DecidableEq, Repr

/-- `send_notification` appends one event to the in-memory list
(main.py line 104). -/
def sendNotification (errors : List ErrorEvent) (e : ErrorEvent) : List ErrorEvent :=
  errors ++ [e]

/-- The error log produced by recording a sequence of events one by one
into a fresh `ErrorNotificationManager` (whose `errors` starts as `[]`,
main.py line 90). -/
def recordAll (evs : List ErrorEvent) : List ErrorEvent :=
  evs.foldl sendNotification []

/-- Python `errors[-limit:]` (main.py line 1034): the last `limit`
events for positive `limit`; for `limit = 0` the slice `[-0:]` is the
whole list. -/
def lastSlice (errors : List ErrorEvent) (limit : Nat) : List ErrorEvent :=
  if limit = 0 then errors else errors.drop (errors.length - limit)

/-- The `/errors` endpoint (main.py lines 1028-1035): returns
`error_count`, `showing` and the slice of most recent events. -/
def getErrors (errors : List ErrorEvent) (limit : Nat) : Nat × Nat × List ErrorEvent :=
  (errors.length, min limit errors.length, lastSlice errors limit)

/-! ## Timezones and the date window (main.py lines 36-38 and 715-731) -/

/-- Milliseconds in one day. -/
def dayMs : Int := 86400000

/-- Fixed UTC offset of `Asia/Novosibirsk` (UTC+7), the zone where the
script runs, in milliseconds. -/
def nskOffsetMs : Int := 25200000

/-- Fixed UTC offset of `Europe/Moscow` (UTC+3), the zone where tenders
are published, in milliseconds. -/
def mskOffsetMs : Int := 10800000

/-- The date window computed at the start of `load_tenders`
(main.py lines 715-731), for an execution zone with fixed offset
`execOffsetMs` and a publication zone with fixed offset `pubOffsetMs`.

Line by line: `now_nsk` is the instant `now` viewed at wall clock
`now + execOffsetMs`; `target_day_nsk = (now_nsk - 1 day).date()` is the
floor day index of that wall clock minus one day; `start_nsk` localizes
that day's 00:00:00 and `end_nsk` its 23:59:59 back to instants; the
`astimezone(MSK_TZ)` and `astimezone(UTC_TZ)` hops change only the
attached zone, never the instant, so `pubOffsetMs` cancels out of the
result; finally `replace(tzinfo=None)` followed by
`datetime.timestamp()` re-reads the UTC wall clock as a local time,
which on the UTC-configured server returns the instant itself, and
`tender_ts` scales to milliseconds. -/
def computeWindow (execOffsetMs pubOffsetMs nowMs : Int) : Int × Int :=
  let nowWall := nowMs + execOffsetMs
  let targetDay := (nowWall - dayMs) / dayMs
  let startMskInstant := targetDay * dayMs - execOffsetMs + pubOffsetMs - pubOffsetMs
  let endMskInstant := targetDay * dayMs + 86399000 - execOffsetMs + pubOffsetMs - pubOffsetMs
  (startMskInstant, endMskInstant)

/-! ## Timestamp display formatting (`convert_timestamp`, main.py lines 137-145) -/

/-- Civil date from a day count since 1970-01-01 (proleptic Gregorian),
the arithmetic behind `datetime.fromtimestamp(..).strftime`. Returns
`(year, month, day)`. -/
def civilFromDays (z0 : Int) : Int × Int × Int :=
  let z := z0 + 719468
  let era := z / 146097
  let doe := z - era * 146097
  let yoe := (doe - doe / 1460 + doe / 36524 - doe / 146096) / 365
  let y := yoe + era * 400
  let doy := doe - (365 * yoe + yoe / 4 - yoe / 100)
  let mp := (5 * doy + 2) / 153
  let d := doy - (153 * mp + 2) / 5 + 1
  let m := mp + (if mp < 10 then 3 else -9)
  (y + (if m ≤ 2 then 1 else 0), m, d)

/-- Two-digit zero padding used by `%d`, `%m`, `%H`, `%M`. -/
def pad2 (n : Int) : String :=
  if n < 10 then "0" ++ toString n else toString n

/-- Four-digit zero padding used by `%Y`. -/
def pad4 (n : Int) : String :=
  if n < 10 then "000" ++ toString n
  else if n < 100 then "00" ++ toString n
  else if n < 1000 then "0" ++ toString n
  else toString n

/-- Formats an epoch-millisecond instant as `"%d.%m.%Y %H:%M"` read on
a UTC wall clock — the behaviour of
`datetime.fromtimestamp(ts / 1000).strftime('%d.%m.%Y %H:%M')` on the
UTC-configured server. -/
def formatMs (ms : Int) : String :=
  let secs := ms / 1000
  let days := secs / 86400
  let sod := secs % 86400
  let ymd := civilFromDays days
  pad2 ymd.2.2 ++ "." ++ pad2 ymd.2.1 ++ "." ++ pad4 ymd.1 ++ " " ++
    pad2 (sod / 3600) ++ ":" ++ pad2 (sod % 3600 / 60)

/-- Smallest epoch second representable by `datetime` (year 1). -/
def minPySec : Int := -62135596800

/-- Largest epoch second representable by `datetime` (year 9999). -/
def maxPySec : Int := 253402300799

/-- `convert_timestamp` (main.py lines 137-145): a missing or zero
timestamp is falsy and yields `""`; a timestamp outside `datetime`'s
representable range makes `fromtimestamp` raise, which the source
catches, logs as a warning and converts to `""`; otherwise the instant
is formatted for display. -/
def convertTimestamp (ts : Option Int) : String :=
  match ts with
  | none => ""
  | some t =>
    if t = 0 then ""
    else if t / 1000 < minPySec ∨ maxPySec < t / 1000 then ""
    else formatMs t

/-! ## Placement-way lookup (`PLACING_WAYS`, main.py lines 113-126) -/

/-- The `PLACING_WAYS` dictionary. -/
def placingWays (c : Int) : Option String :=
  if c = 0 then some "Иной способ"
  else if c = 1 then some "Открытый конкурс"
  else if c = 2 then some "Открытый аукцион"
  else if c = 3 then some "Открытый аукцион (ЭФ)"
  else if c = 4 then some "Запрос котировок"
  else if c = 5 then some "Предварительный отбор"
  else if c = 6 then some "Единственный поставщик"
  else if c = 7 then some "Конкурс с ограничением"
  else if c = 8 then some "Двухэтапный конкурс"
  else if c = 9 then some "Закрытый конкурс"
  else if c = 10 then some "Закрытый конкурс с огр."
  else if c = 11 then some "Закрытый двухэтапный"
  else if c = 12 then some "Закрытый аукцион"
  else if c = 13 then some "Запрос котировок без извещения"
  else if c = 14 then some "Запрос предложений"
  else if c = 15 then some "Электронный аукцион"
  else if c = 16 then some "Иной многолотовый способ"
  else if c = 17 then some "Сообщение о заинтересованности"
  else if c = 18 then some "Иной однолотовый способ"
  else if c = 19 then some "Редукцион"
  else if c = 20 then some "Переторжка"
  else if c = 21 then some "Переговоры"
  else if c = 22 then some "Запрос котировок ЭФ"
  else if c = 23 then some "Открытый конкурс ЭФ"
  else if c = 24 then some "Запрос предложений ЭФ"
  else if c = 25 then some "Конкурс с ограничением ЭФ"
  else if c = 26 then some "Двухэтапный ЭФ"
  else if c = 27 then some "Запрос цен"
  else if c = 28 then some "Голландский аукцион"
  else if c = 29 then some "Публичное предложение"
  else if c = 30 then some "Закупки малого объема"
  else none

/-! ## Tender records and attachments (data model, spec §3) -/

/-- The `customers` field of a raw tender dict.  The remote API sends
opaque JSON, so besides a well-formed list of customer dicts (each
contributing its `name`) the field can be absent (`t.get("customers",
[])` then yields `[]`) or hold a non-list value, in which case the
list comprehension over it raises `TypeError` inside the per-tender
`try` block of `load_tenders`. -/
inductive CustomersField
  | absent
  | items (names : List (Option String))
  | notAList
deriving DecidableEq, Repr

/-- One raw tender record, with the fields `load_tenders` reads via
`t.get(...)`.  `none` models a missing key. -/
structure Tender where
  id : Option String
  orderName : Option String
  customers : CustomersField
  maxPrice : Option String
  placingWay : Option Int
  publicationDateTime : Option Int
  submissionCloseDateTime : Option Int
deriving DecidableEq, Repr

/-- One raw attachment dict `{displayName, href}` from the attachment
API. -/
structure RawAttachment where
  displayName : Option String
  href : Option String
deriving DecidableEq, Repr

/-- The filter of main.py line 283: keep an attachment only when both
`displayName` and `href` are truthy (present and non-empty). -/
def keepAttachment (a : RawAttachment) : Bool :=
  a.displayName.getD "" != "" && a.href.getD "" != ""

/-! ## Attachment fetcher (`fetch_attachments`, main.py lines 227-299) -/

/-- The body of an attachment-API HTTP response as `fetch_attachments`
discriminates it: whitespace-only text (main.py line 275), a JSON
list, JSON of a non-list type (line 279), or text on which
`resp.json()` raises (caught by the generic handler at line 297). -/
inductive AttachBody
  | emptyText
  | jsonList (items : List RawAttachment)
  | jsonNonList
  | jsonInvalid
deriving DecidableEq, Repr

/-- The observable outcome of the attachment-API request for one
tender: an HTTP response, a `requests.Timeout`, or a
`requests.ConnectionError`. -/
inductive AttachResponse
  | http (status : Nat) (body : AttachBody)
  | timeout
  | connError
deriving DecidableEq, Repr

/-- Error event sent on a 401 from the attachment API (main.py
lines 237-246). -/
def attach401Ev (tenderId : String) : ErrorEvent :=
  ⟨.tenderplanApiError, "Получение приложений",
   "Неавторизованный запрос к TenderPlan API (401 Unauthorized)",
   [("tender_id", tenderId), ("status_code", "401")]⟩

/-- Error event sent on a 429 from the attachment API (main.py
lines 249-259). -/
def attach429Ev (tenderId : String) : ErrorEvent :=
  ⟨.tenderplanApiError, "Получение приложений",
   "Превышен лимит запросов к TenderPlan API (429 Too Many Requests)",
   [("tender_id", tenderId), ("status_code", "429")]⟩

/-- Error event sent on any other non-200 status from the attachment
API (main.py lines 262-272). -/
def attachStatusEv (tenderId : String) (status : Nat) : ErrorEvent :=
  ⟨.tenderplanApiError, "Получение приложений",
   "TenderPlan API вернул статус " ++ toString status,
   [("tender_id", tenderId), ("status_code", toString status)]⟩

/-- Error event sent on a `requests.ConnectionError` while fetching
attachments (main.py lines 289-295). -/
def attachConnEv (tenderId : String) : ErrorEvent :=
  ⟨.tenderplanApiError, "Получение приложений",
   "Ошибка соединения при получении приложений",
   [("tender_id", tenderId)]⟩

/-- `fetch_attachments` (main.py lines 227-299).  Returns the parsed
attachment list together with the error events appended to the global
error log.  The source's `requests.Timeout` branch (line 286), empty
body, non-list JSON and generic-exception branches only write to the
Python logger, not to the error log, and all of them — like every other
failure branch — return `[]` instead of raising. -/
def fetchAttachments (tenderId : String) (resp : AttachResponse) :
    List RawAttachment × List ErrorEvent :=
  match resp with
  | .http status body =>
    if status = 401 then ([], [attach401Ev tenderId])
    else if status = 429 then ([], [attach429Ev tenderId])
    else if status ≠ 200 then ([], [attachStatusEv tenderId status])
    else
      match body with
      | .emptyText => ([], [])
      | .jsonList items => (items.filter keepAttachment, [])
      | .jsonNonList => ([], [])
      | .jsonInvalid => ([], [])
  | .timeout => ([], [])
  | .connError => ([], [attachConnEv tenderId])

/-! ## Tender fetch loop (main.py lines 747-865) -/

/-- The body of a tender-list HTTP response: JSON that parses to a dict
whose `tenders` key may be absent (`data.get("tenders", [])`, main.py
line 827), or text on which `resp.json()` raises `ValueError`
(lines 814-825). -/
inductive PageBody
  | json (tenders : Option (List Tender))
  | malformed
deriving DecidableEq, Repr

/-- The observable outcome of one tender-list page request: an HTTP
response, a `requests.Timeout` (main.py line 836), a
`requests.ConnectionError` (line 846), or some other exception raised
by the request (line 856). -/
inductive PageResp
  | http (status : Nat) (body : PageBody)
  | timeout
  | connError
  | exn
deriving DecidableEq, Repr

/-- Shorthand for a well-formed 200 page carrying a tender list. -/
def okPage (ts : List Tender) : PageResp :=
  .http 200 (.json (some ts))

/-- Error event sent on a 401 from the tender-list API (main.py
lines 767-777). -/
def page401Ev : ErrorEvent :=
  ⟨.tenderplanApiError, "Загрузка тендеров",
   "Неавторизованный запрос к TenderPlan API (401 Unauthorized)",
   [("status_code", "401")]⟩

/-- Error event sent on a 429 from the tender-list API (main.py
lines 784-794). -/
def page429Ev (page : Nat) : ErrorEvent :=
  ⟨.tenderplanApiError, "Загрузка тендеров",
   "Превышен лимит запросов (429 Too Many Requests)",
   [("status_code", "429"), ("page", toString page)]⟩

/-- Error event sent on any other non-200 status (main.py
lines 798-808). -/
def pageStatusEv (status page : Nat) : ErrorEvent :=
  ⟨.tenderplanApiError, "Загрузка тендеров",
   "TenderPlan API вернул ошибку " ++ toString status,
   [("status_code", toString status), ("page", toString page)]⟩

/-- Error event sent when `resp.json()` raises (main.py lines 816-822). -/
def pageJsonEv (page : Nat) : ErrorEvent :=
  ⟨.tenderplanApiError, "Парсинг ответа TenderPlan API",
   "Ошибка парсинга JSON ответа",
   [("page", toString page)]⟩

/-- Error event sent on `requests.Timeout` (main.py lines 836-842). -/
def pageTimeoutEv (page : Nat) : ErrorEvent :=
  ⟨.tenderplanApiError, "Загрузка тендеров",
   "Timeout при загрузке тендеров (>15 сек)",
   [("page", toString page)]⟩

/-- Error event sent on `requests.ConnectionError` (main.py
lines 846-852). -/
def pageConnEv (page : Nat) : ErrorEvent :=
  ⟨.tenderplanApiError, "Загрузка тендеров",
   "Ошибка соединения",
   [("page", toString page)]⟩

/-- Error event sent by the generic exception handler of the fetch loop
(main.py lines 856-862). -/
def pageExnEv (page : Nat) : ErrorEvent :=
  ⟨.tenderplanApiError, "Загрузка тендеров",
   "Неожиданная ошибка при загрузке тендеров",
   [("page", toString page)]⟩

/-- The mutable state of the fetch loop: `all_tenders`, `page`,
`failed_pages` and the error log grown so far. -/
structure FetchSt where
  acc : List Tender
  page : Nat
  failed : List Nat
  log : List ErrorEvent
deriving DecidableEq, Repr

/-- Result of the `while True` fetch loop of `load_tenders`:
a 401 aborts the whole endpoint (`unauthorized`), every other exit
reaches the code after the loop (`done`), and `noMoreResponses` marks
runs whose environment supplied fewer page responses than the loop
consumes — no theorem below goes through it. -/
inductive FetchResult
  | unauthorized (log : List ErrorEvent)
  | done (tenders : List Tender) (failed : List Nat) (log : List ErrorEvent)
  | noMoreResponses (st : FetchSt)
deriving DecidableEq, Repr

/-- The paginated fetch loop (main.py lines 747-865), consuming the
page responses the remote API returns in order.  On 200 with a
non-empty `tenders` list it accumulates and advances `page`
(lines 827-834); on an empty or absent list it stops (line 828-830);
401 aborts the endpoint (lines 767-782); 429 breaks without marking the
page failed (lines 784-796); any other status, malformed JSON, timeout,
connection error or unexpected exception appends the page to
`failed_pages` and breaks. -/
def fetchLoop : List PageResp → FetchSt → FetchResult
  | [], st => .noMoreResponses st
  | r :: rest, st =>
    match r with
    | .http status body =>
      if status = 401 then .unauthorized (st.log ++ [page401Ev])
      else if status = 429 then .done st.acc st.failed (st.log ++ [page429Ev st.page])
      else if status ≠ 200 then
        .done st.acc (st.failed ++ [st.page]) (st.log ++ [pageStatusEv status st.page])
      else
        match body with
        | .malformed =>
          .done st.acc (st.failed ++ [st.page]) (st.log ++ [pageJsonEv st.page])
        | .json ts? =>
          let tenders := ts?.getD []
          if tenders.isEmpty then .done st.acc st.failed st.log
          else fetchLoop rest
            { acc := st.acc ++ tenders, page := st.page + 1,
              failed := st.failed, log := st.log }
    | .timeout => .done st.acc (st.failed ++ [st.page]) (st.log ++ [pageTimeoutEv st.page])
    | .connError => .done st.acc (st.failed ++ [st.page]) (st.log ++ [pageConnEv st.page])
    | .exn => .done st.acc (st.failed ++ [st.page]) (st.log ++ [pageExnEv st.page])

/-! ## Spreadsheet sink (`ensure_header`, main.py lines 189-224) -/

/-- The Google sheet, reduced to its grid of rows.  `row_values(1)`
reads the first row (or `[]` when the sheet has no first row),
`delete_rows(1)` drops it, `insert_row(h, 1)` prepends, and
`append_rows` concatenates at the bottom. -/
structure Sheet where
  rows : List (List String)
deriving DecidableEq, Repr

/-- The header row for a batch whose widest tender has `maxDocs`
attachments (main.py lines 192-200): nine fixed columns followed by a
name/link column pair per document slot. -/
def headerRow (maxDocs : Nat) : List String :=
  ["Дата строки", "ID тендера", "Название", "Заказчик",
   "НМЦ", "Ссылка", "Дата публикации",
   "Дата окончания подачи", "Способ размещения"]
  ++ ((List.range maxDocs).map
      (fun i => ["Документ " ++ toString (i + 1) ++ " Название",
                 "Документ " ++ toString (i + 1) ++ " Ссылка"])).flatten

/-- `ensure_header` (main.py lines 189-206).  Reads the first row; when
it differs from the expected header it deletes the existing first row
(only if that row is non-empty, since an empty `first_row` is falsy)
and inserts the freshly built header at row 1.  The two booleans record
whether `delete_rows` respectively `insert_row` were invoked. -/
def ensureHeader (sheet : Sheet) (maxDocs : Nat) : Sheet × Bool × Bool :=
  if sheet.rows.head?.getD [] ≠ headerRow maxDocs then
    if sheet.rows.head?.getD [] ≠ [] then
      (⟨headerRow maxDocs :: sheet.rows.tail⟩, true, true)
    else (⟨headerRow maxDocs :: sheet.rows⟩, false, true)
  else (sheet, false, false)

/-! ## Row transformer (main.py lines 900-937) -/

/-- Customer names joined with `", "` (main.py lines 904-905); an
absent `customers` key defaults to `[]` and yields the empty string. -/
def customerNamesOf : CustomersField → String
  | .absent => ""
  | .items ns => String.intercalate ", " (ns.map (fun n => n.getD ""))
  | .notAList => ""

/-- The placement-way label (main.py line 907): dictionary lookup with
the literal fallback for an unmapped or missing code. -/
def placingLabel (pw : Option Int) : String :=
  match pw with
  | none => "Неизвестно"
  | some c => (placingWays c).getD "Неизвестно"

/-- One spreadsheet row (main.py lines 912-926): nine fixed columns
followed by a name/href pair per fetched attachment. -/
def rowOf (nowStr tenderId : String) (t : Tender) (atts : List RawAttachment) :
    List String :=
  [nowStr, tenderId, t.orderName.getD "", customerNamesOf t.customers,
   t.maxPrice.getD "",
   "https://tenderplan.ru/app?key=0&tender=" ++ tenderId,
   convertTimestamp t.publicationDateTime,
   convertTimestamp t.submissionCloseDateTime,
   placingLabel t.placingWay]
  ++ (atts.map (fun a => [a.displayName.getD "", a.href.getD ""])).flatten

/-- The state threaded through the per-tender processing loop of ЭТАП 4
(main.py lines 895-898): `rows`, `max_docs`, `processing_errors` and
the global error log. -/
structure ProcSt where
  rows : List (List String)
  maxDocs : Nat
  procErrors : List (Option String × String)
  log : List ErrorEvent
deriving DecidableEq, Repr

/-- One iteration of the per-tender loop (main.py lines 900-937).  A
non-list `customers` value makes the comprehension at line 905 raise
`TypeError`, which the per-tender handler records in
`processing_errors` and skips the record; no earlier statement of the
`try` block can raise on the modelled data.  Otherwise attachments are
fetched (never raising, possibly logging), `max_docs` is raised to the
attachment count, and the transformed row is appended. -/
def processTender (attach : String → AttachResponse) (nowStr : String)
    (st : ProcSt) (t : Tender) : ProcSt :=
  if t.customers = CustomersField.notAList then
    { st with procErrors := st.procErrors ++ [(t.id, "can only join an iterable")] }
  else
    let tenderId := t.id.getD "unknown"
    let fetched := fetchAttachments tenderId (attach tenderId)
    { rows := st.rows ++ [rowOf nowStr tenderId t fetched.1],
      maxDocs := max st.maxDocs fetched.1.length,
      procErrors := st.procErrors,
      log := st.log ++ fetched.2 }

/-- Attachment count fetched for one tender, as seen by the `max_docs`
update at main.py line 910. -/
def attCount (attach : String → AttachResponse) (t : Tender) : Nat :=
  (fetchAttachments (t.id.getD "unknown") (attach (t.id.getD "unknown"))).1.length

/-! ## The `load_tenders` endpoint (main.py lines 702-1022) -/

/-- Error event sent by `get_sheet` before it re-raises (main.py
lines 155-186); one representative of its several failure branches. -/
def sheetConnEv : ErrorEvent :=
  ⟨.googleSheetsError, "Подключение к Google Sheets",
   "Ошибка при подключении к Google Sheets", []⟩

/-- Error event sent by `ensure_header` before it re-raises (main.py
lines 209-224). -/
def headerFailEv : ErrorEvent :=
  ⟨.googleSheetsError, "Обновление заголовка",
   "Ошибка при обновлении заголовка", []⟩

/-- Error event sent when `append_rows` raises (main.py
lines 967-989). -/
def appendFailEv : ErrorEvent :=
  ⟨.googleSheetsError, "Загрузка данных в Sheets",
   "Ошибка при загрузке данных в Google Sheets", []⟩

/-- The environment of one `load_tenders` run: the current instant, the
page responses the tender API returns in order, the attachment response
per tender id, the sheet behind `get_sheet` (`none` models a connection
failure that makes `get_sheet` raise), and whether `ensure_header`
respectively `append_rows` raise an API error. -/
structure Env where
  nowMs : Int
  pages : List PageResp
  attach : String → AttachResponse
  sheet : Option Sheet
  headerFails : Bool
  appendFails : Bool

/-- The JSON body `load_tenders` returns: the structured error
responses (lines 778-782, 886-890, 955-959, 978-994), the early
success when no tenders were found (lines 867-874, always `added: 0`),
and the final success report (lines 1001-1008).  `incomplete` only
propagates `FetchResult.noMoreResponses`. -/
inductive LoadResponse
  | errorResp (error : String) (message : String)
  | emptySuccess (added : Nat) (failedPages : List Nat)
  | success (added totalFetched processingErrors : Nat) (failedPages : List Nat)
  | incomplete
deriving DecidableEq, Repr

/-- Everything observable about one `load_tenders` run: the response
body, the final sheet, the rows appended to it during the run, the
error-log events recorded, and the per-run `processing_errors` list. -/
structure RunResult where
  response : LoadResponse
  sheet : Option Sheet
  appended : List (List String)
  errorLog : List ErrorEvent
  processingErrors : List (Option String × String)
deriving Repr

/-- The `load_tenders` endpoint (main.py lines 702-1022).

ЭТАП 1 computes the date window (`computeWindow`), which only
parametrizes the outgoing query and is therefore not consumed by the
response oracle `env.pages`.  ЭТАП 2 runs the fetch loop; a 401 returns
the `Unauthorized` error body before any sheet access.  An empty
harvest returns the early success with `added = 0` (lines 867-874).
ЭТАП 3 opens the sheet, returning the connection-error body when
`get_sheet` raises.  ЭТАП 4 folds the per-tender transformer over the
harvest.  ЭТАП 5 reconciles the header, then appends all rows in one
batch call; a failing batch call reports an error body with no rows
confirmed added. -/
def loadTenders (env : Env) : RunResult :=
  match fetchLoop env.pages { acc := [], page := 0, failed := [], log := [] } with
  | .unauthorized log =>
      { response := .errorResp "Unauthorized" "Ошибка аутентификации. Проверьте API_TOKEN.",
        sheet := env.sheet, appended := [], errorLog := log, processingErrors := [] }
  | .noMoreResponses st =>
      { response := .incomplete, sheet := env.sheet, appended := [],
        errorLog := st.log, processingErrors := [] }
  | .done tenders failed log =>
    if tenders.isEmpty then
      { response := .emptySuccess 0 failed, sheet := env.sheet, appended := [],
        errorLog := log, processingErrors := [] }
    else
      match env.sheet with
      | none =>
          { response := .errorResp "Google Sheets Connection Error" "get_sheet raised",
            sheet := none, appended := [], errorLog := log ++ [sheetConnEv],
            processingErrors := [] }
      | some sheet0 =>
          let nowStr := formatMs (env.nowMs + nskOffsetMs)
          let st := tenders.foldl (processTender env.attach nowStr)
            { rows := [], maxDocs := 0, procErrors := [], log := log }
          if env.headerFails then
            { response := .errorResp "Header Update Error" "ensure_header raised",
              sheet := some sheet0, appended := [],
              errorLog := st.log ++ [headerFailEv], processingErrors := st.procErrors }
          else
            let sheet2 := (ensureHeader sheet0 st.maxDocs).1
            if !st.rows.isEmpty && env.appendFails then
              { response := .errorResp "Google Sheets API Error" "append_rows raised",
                sheet := some sheet2, appended := [],
                errorLog := st.log ++ [appendFailEv], processingErrors := st.procErrors }
            else
              { response := .success st.rows.length tenders.length
                  st.procErrors.length failed,
                sheet := some ⟨sheet2.rows ++ st.rows⟩, appended := st.rows,
                errorLog := st.log, processingErrors := st.procErrors }

/-! ## Size-limited download and the parse endpoint
(`download_file_with_limit`, main.py lines 305-407; `/parse-doc`,
lines 624-696) -/

/-- Event sent when the HEAD pre-flight finds the advertised size over
the cap (main.py lines 324-331). -/
def sizeHeadEv (fileSize maxSize : Nat) : ErrorEvent :=
  ⟨.fileSizeError, "Проверка размера файла",
   "Файл слишком большой",
   [("file_size", toString fileSize), ("max_size", toString maxSize)]⟩

/-- Event sent when the cumulative streamed size crosses the cap
mid-stream (main.py lines 351-358). -/
def sizeStreamEv (downloaded maxSize : Nat) : ErrorEvent :=
  ⟨.fileSizeError, "Скачивание файла",
   "Скачанный файл превышает лимит",
   [("downloaded", toString downloaded), ("max_size", toString maxSize)]⟩

/-- Event sent on a download timeout (main.py lines 370-376). -/
def dlTimeoutEv : ErrorEvent :=
  ⟨.fileDownloadError, "Загрузка документа", "Timeout при скачивании", []⟩

/-- Event sent on a download connection error (main.py lines 379-385). -/
def dlConnEv : ErrorEvent :=
  ⟨.fileDownloadError, "Загрузка документа", "Ошибка соединения", []⟩

/-- Event sent when `raise_for_status` raises `requests.HTTPError`
(main.py lines 388-394). -/
def dlHttpEv (status : Nat) : ErrorEvent :=
  ⟨.fileDownloadError, "Загрузка документа",
   "HTTP ошибка " ++ toString status,
   [("status_code", toString status)]⟩

/-- The observable outcome of the streamed GET request: a chunk stream
(each chunk a byte list, as produced by `iter_content`), a timeout, a
connection error, or a non-2xx status that `raise_for_status` turns
into `requests.HTTPError`. -/
inductive GetResult
  | stream (chunks : List (List Nat))
  | timeout
  | connError
  | httpStatusError (status : Nat)
deriving DecidableEq, Repr

/-- Result of `download_file_with_limit`: the full byte content, or the
`HTTPException` (status code, detail) it raises, paired with the error
events recorded on the way.  An error result carries no bytes: the
chunks read before the failure are discarded with the raised
exception. -/
inductive DlResult
  | ok (content : List Nat) (log : List ErrorEvent)
  | httpError (status : Nat) (detail : String) (log : List ErrorEvent)
deriving DecidableEq, Repr

/-- The streaming loop of main.py lines 341-366: empty chunks are
skipped (`if chunk:`), the cumulative size is checked against the cap
after counting each chunk and before keeping it, and on success the
kept chunks are joined in arrival order.  Returns the cumulative size
at the moment the cap was crossed, or the joined content. -/
def streamChunks (maxSize : Nat) : List (List Nat) → Nat → List (List Nat) →
    Except Nat (List Nat)
  | [], _, kept => .ok kept.reverse.flatten
  | c :: rest, downloaded, kept =>
    if c.isEmpty then streamChunks maxSize rest downloaded kept
    else if maxSize < downloaded + c.length then .error (downloaded + c.length)
    else streamChunks maxSize rest (downloaded + c.length) (c :: kept)

/-- The GET phase of `download_file_with_limit` (main.py
lines 340-368 plus the exception handlers at 370-395). -/
def downloadStream (get : GetResult) (maxSize : Nat) : DlResult :=
  match get with
  | .timeout => .httpError 408 "Timeout" [dlTimeoutEv]
  | .connError => .httpError 503 "Не удалось скачать файл" [dlConnEv]
  | .httpStatusError s => .httpError s "Ошибка при скачивании файла" [dlHttpEv s]
  | .stream chunks =>
    match streamChunks maxSize chunks 0 [] with
    | .error downloaded =>
      .httpError 413 "Файл слишком большой" [sizeStreamEv downloaded maxSize]
    | .ok content => .ok content []

/-- The error events the HEAD pre-flight records (main.py
lines 319-338).  `headSize` is the `content-length` the HEAD request
reported (`none` when the HEAD request itself failed or the header was
unparsable, which the source only logs as a warning; a missing header
defaults to `0` and is `some 0` here).  An oversize advertised length
sends the `File Size Error` notification (line 326) and then raises
`HTTPException(413)` at line 332 — but FastAPI's `HTTPException`
subclasses `Exception`, so the inner `except Exception` handler at
line 337 swallows that raise, logs a warning and lets control fall
through to the streamed GET.  The pre-flight therefore never aborts a
download; its only observable effect is this log entry. -/
def headPreflightLog (headSize : Option Nat) (maxSize : Nat) : List ErrorEvent :=
  match headSize with
  | some fileSize =>
    if maxSize < fileSize then [sizeHeadEv fileSize maxSize] else []
  | none => []

/-- `download_file_with_limit` (main.py lines 305-407).  The HEAD
pre-flight only contributes its (possibly empty) log entry — its 413
raise is swallowed by the inner `except Exception`, see
`headPreflightLog` — and the streamed GET always runs, enforcing the
cap incrementally. -/
def downloadFileWithLimit (headSize : Option Nat) (get : GetResult)
    (maxSize : Nat) : DlResult :=
  match downloadStream get maxSize with
  | .ok content log => .ok content (headPreflightLog headSize maxSize ++ log)
  | .httpError s d log => .httpError s d (headPreflightLog headSize maxSize ++ log)

/-- Response of the `/parse-doc` endpoint (main.py lines 624-696): the
success body with the extracted text and detected format, or the
`HTTPException` propagated from download or parsing. -/
inductive ParseOutcome
  | ok (text : String) (format : String)
  | httpError (status : Nat) (detail : String)
deriving DecidableEq, Repr

/-- The `/parse-doc` endpoint (main.py lines 624-696): download with
the streamed size cap, dispatch on the lower-cased url suffix
(line 655), then parse from memory.  The format parser itself
(python-docx or mammoth over the byte
content) is an oracle `parseBytes`; a parse failure maps to the 422/500
`HTTPException` of `parse_docx_from_bytes` / `parse_doc_from_bytes`. -/
def parseDocEndpoint (url : String) (headSize : Option Nat) (get : GetResult)
    (maxSize : Nat) (parseBytes : List Nat → Except String String) : ParseOutcome :=
  match downloadFileWithLimit headSize get maxSize with
  | .httpError s d _ => .httpError s d
  | .ok content _ =>
    match parseBytes content with
    | .error e => .httpError 500 e
    | .ok text => .ok text (if url.toLower.endsWith "docx" then "docx" else "doc")

/-! ## Helper lemmas -/

/-- A run of well-formed non-empty 200 pages is consumed whole by the
fetch loop: the tenders are accumulated in order, the page counter
advances once per page, and neither `failed_pages` nor the error log
grows. -/
theorem fetchLoop_okPages (tss : List (List Tender)) (rest : List PageResp) :
    ∀ st : FetchSt, (∀ ts ∈ tss, ts ≠ []) →
    fetchLoop (tss.map okPage ++ rest) st =
      fetchLoop rest
        { acc := st.acc ++ tss.flatten, page := st.page + tss.length,
          failed := st.failed, log := st.log } := by
  induction tss with
  | nil =>
    intro st _
    cases st
    simp
  | cons ts tss ih =>
    intro st h
    have hts : ts ≠ [] := h ts (List.mem_cons_self _ _)
    obtain ⟨a, l, rfl⟩ : ∃ a l, ts = a :: l := by
      cases ts with
      | nil => exact absurd rfl hts
      | cons a l => exact ⟨a, l, rfl⟩
    simp only [List.map_cons, List.cons_append, okPage, fetchLoop, Option.getD_some,
      List.isEmpty_cons]
    norm_num
    rw [ih _ (fun t ht => h t (List.mem_cons_of_mem _ ht))]
    congr 1
    simp [List.append_assoc]
    omega

/-- Processing a batch of tenders whose `customers` fields are
well-formed appends one row per tender, leaves `processing_errors`
untouched, raises `max_docs` to the maximum attachment count seen, and
only ever appends to the error log. -/
theorem processBatch_facts (attach : String → AttachResponse) (nowStr : String) :
    ∀ (ts : List Tender) (st : ProcSt),
    (∀ t ∈ ts, t.customers ≠ CustomersField.notAList) →
    (ts.foldl (processTender attach nowStr) st).rows.length = st.rows.length + ts.length ∧
    (ts.foldl (processTender attach nowStr) st).procErrors = st.procErrors ∧
    (ts.foldl (processTender attach nowStr) st).maxDocs =
      (ts.map (attCount attach)).foldl max st.maxDocs ∧
    ∃ evs, (ts.foldl (processTender attach nowStr) st).log = st.log ++ evs := by
  intro ts
  induction ts with
  | nil =>
    intro st _
    exact ⟨rfl, rfl, rfl, [], by simp⟩
  | cons t ts ih =>
    intro st h
    have ht : t.customers ≠ CustomersField.notAList := h t (List.mem_cons_self _ _)
    have hstep : processTender attach nowStr st t =
        { rows := st.rows ++ [rowOf nowStr (t.id.getD "unknown") t
            (fetchAttachments (t.id.getD "unknown") (attach (t.id.getD "unknown"))).1],
          maxDocs := max st.maxDocs (attCount attach t),
          procErrors := st.procErrors,
          log := st.log ++ (fetchAttachments (t.id.getD "unknown")
            (attach (t.id.getD "unknown"))).2 } := by
      rw [processTender, if_neg ht]
      rfl
    obtain ⟨h1, h2, h3, evs, h4⟩ :=
      ih ⟨st.rows ++ [rowOf nowStr (t.id.getD "unknown") t
            (fetchAttachments (t.id.getD "unknown") (attach (t.id.getD "unknown"))).1],
          max st.maxDocs (attCount attach t),
          st.procErrors,
          st.log ++ (fetchAttachments (t.id.getD "unknown")
            (attach (t.id.getD "unknown"))).2⟩
        (fun u hu => h u (List.mem_cons_of_mem _ hu))
    refine ⟨?_, ?_, ?_, ?_⟩
    · simp only [List.foldl_cons, hstep]
      rw [h1]
      simp
      omega
    · simp only [List.foldl_cons, hstep, h2]
    · simp only [List.foldl_cons, hstep, h3, List.map_cons]
    · refine ⟨(fetchAttachments (t.id.getD "unknown")
        (attach (t.id.getD "unknown"))).2 ++ evs, ?_⟩
      simp only [List.foldl_cons, hstep, h4, List.append_assoc]

/-- The header row for `n` attachment slots has `9 + 2 * n` columns. -/
theorem headerRow_length (n : Nat) : (headerRow n).length = 9 + 2 * n := by
  induction n with
  | zero => rfl
  | succ k ih =>
    simp only [headerRow, List.range_succ, List.map_append, List.flatten_append,
      List.length_append] at ih ⊢
    simp only [List.map_cons, List.map_nil, List.flatten_cons, List.flatten_nil,
      List.length_append, List.length_cons, List.length_nil] at ih ⊢
    omega

/-- After `ensure_header` runs, the sheet's first row is the expected
header, in every branch. -/
theorem ensureHeader_first (s : Sheet) (n : Nat) :
    (ensureHeader s n).1.rows.head?.getD [] = headerRow n := by
  unfold ensureHeader
  split_ifs with h1 h2 <;> simp_all

/-- Folding `send_notification` over a fresh manager retains every
event in arrival order: the log is unbounded. -/
theorem recordAll_eq (evs : List ErrorEvent) : recordAll evs = evs := by
  have key : ∀ (l acc : List ErrorEvent), l.foldl sendNotification acc = acc ++ l := by
    intro l
    induction l with
    | nil => intro acc; simp
    | cons e l ih => intro acc; simp [sendNotification, ih, List.append_assoc]
  simpa [recordAll] using key evs []

/-- When the chunk stream eventually exceeds the cap, the streaming
loop aborts with the cumulative size at the crossing point. -/
theorem streamChunks_exceeds (maxSize : Nat) :
    ∀ (chunks : List (List Nat)) (downloaded : Nat) (kept : List (List Nat)),
    downloaded ≤ maxSize →
    maxSize < downloaded + chunks.flatten.length →
    ∃ d, streamChunks maxSize chunks downloaded kept = .error d ∧ maxSize < d := by
  intro chunks
  induction chunks with
  | nil =>
    intro dl kept hle hlt
    simp at hlt
    omega
  | cons c rest ih =>
    intro dl kept hle hlt
    cases c with
    | nil =>
      rw [streamChunks]
      simp only [List.isEmpty_nil, if_true]
      exact ih dl kept hle (by simpa using hlt)
    | cons x xs =>
      rw [streamChunks]
      simp only [List.isEmpty_cons, Bool.false_eq_true, if_false]
      by_cases hover : maxSize < dl + (x :: xs).length
      · rw [if_pos hover]
        exact ⟨dl + (x :: xs).length, rfl, hover⟩
      · rw [if_neg hover]
        push_neg at hover
        refine ih (dl + (x :: xs).length) ((x :: xs) :: kept) hover ?_
        simp only [List.flatten_cons, List.length_append] at hlt
        simp only [List.length_cons] at hlt ⊢
        omega

/-- `ensure_header` is a no-op on a sheet whose first row already is
the expected header. -/
theorem ensureHeader_noop (s2 : Sheet) (n : Nat)
    (h : s2.rows.head?.getD [] = headerRow n) :
    ensureHeader s2 n = (s2, false, false) := by
  unfold ensureHeader
  rw [if_neg (by simp [h])]

/-! ## Claim theorems -/

/-- C1, counterexample.  The claim says the window `[from_ms, to_ms)`
bounds exactly the previous calendar day in the execution timezone.  In
a fixed-offset zone a half-open window covering exactly one calendar
day must satisfy `to_ms = from_ms + 86400000`; the code sets the end
boundary to 23:59:59 of the target day, so at the concrete instant
`now = 1700000000000` (any instant shows the same) the window is
1000 ms short of the full day. -/
theorem c1_exact_day_cex :
    (computeWindow nskOffsetMs mskOffsetMs 1700000000000).2 ≠
      (computeWindow nskOffsetMs mskOffsetMs 1700000000000).1 + 86400000 := by
  decide

/-- C1, amended.  For every pair of fixed timezone offsets and every
instant `now`, the window starts exactly at the previous local calendar
day's midnight (its start wall clock is midnight of the local day index
minus one), ends 86399000 ms later (the local 23:59:59 of that day, so
`[from_ms, to_ms)` covers the previous calendar day except its final
second), and satisfies `from_ms < to_ms`; the publication-zone offset
does not influence the result. -/
theorem c1_window_amended (execOff pubOff now : Int) :
    (computeWindow execOff pubOff now).1 + execOff =
      ((now + execOff) / dayMs - 1) * dayMs ∧
    (computeWindow execOff pubOff now).2 =
      (computeWindow execOff pubOff now).1 + 86399000 ∧
    (computeWindow execOff pubOff now).1 <
      (computeWindow execOff pubOff now).2 := by
  simp only [computeWindow, dayMs]
  refine ⟨?_, ?_, ?_⟩ <;> omega

/-- C7: `ensure_header` is idempotent — re-running it with the same
`max_attachment_columns` on the sheet produced by the first run leaves
the sheet unchanged and performs neither a delete nor an insert. -/
theorem c7_ensureHeader_idempotent (s : Sheet) (n : Nat) :
    ensureHeader (ensureHeader s n).1 n = ((ensureHeader s n).1, false, false) :=
  ensureHeader_noop _ n (ensureHeader_first s n)

/-- C9, counterexample.  The claim says the process-wide error log is a
ring with some fixed capacity.  It is not: `send_notification` only
appends, so for every candidate capacity a sequence of that many plus
one events leaves the log strictly larger. -/
theorem c9_ring_cex :
    ¬ ∃ cap : Nat, ∀ evs : List ErrorEvent, (recordAll evs).length ≤ cap := by
  rintro ⟨cap, h⟩
  have h2 := h (List.replicate (cap + 1) ⟨.unknownError, "s", "m", []⟩)
  rw [recordAll_eq] at h2
  simp only [List.length_replicate] at h2
  omega

/-- C9, amended.  The process-wide error log is an unbounded
append-only list retaining every recorded event in order; only the
`/errors` read endpoint windows it, returning (for a positive `limit`)
the suffix of the `min limit count` most recent events together with
the total count. -/
theorem c9_unbounded_append_log (evs : List ErrorEvent) (limit : Nat)
    (h : 0 < limit) :
    recordAll evs = evs ∧
    (getErrors evs limit).2.2 = evs.drop (evs.length - limit) ∧
    (getErrors evs limit).2.2.length = min limit evs.length ∧
    evs.take (evs.length - limit) ++ (getErrors evs limit).2.2 = evs ∧
    (getErrors evs limit).1 = evs.length := by
  have hne : limit ≠ 0 := Nat.pos_iff_ne_zero.mp h
  refine ⟨recordAll_eq evs, ?_, ?_, ?_, rfl⟩
  · simp [getErrors, lastSlice, hne]
  · simp only [getErrors, lastSlice, hne, if_false, List.length_drop]
    omega
  · simp only [getErrors, lastSlice, hne, if_false]
    exact List.take_append_drop _ _

/-- A sample error event used by concrete witnesses. -/
def evSample : ErrorEvent := ⟨.unknownError, "stage", "msg", []⟩

/-- C9 witness: the amended statement evaluated on a concrete
three-event log with `limit = 2`. -/
theorem c9_unbounded_append_log_witness :
    0 < 2 ∧
    (recordAll [evSample, evSample, evSample] = [evSample, evSample, evSample] ∧
     (getErrors [evSample, evSample, evSample] 2).2.2 =
       [evSample, evSample, evSample].drop ([evSample, evSample, evSample].length - 2) ∧
     (getErrors [evSample, evSample, evSample] 2).2.2.length =
       min 2 [evSample, evSample, evSample].length ∧
     [evSample, evSample, evSample].take ([evSample, evSample, evSample].length - 2) ++
       (getErrors [evSample, evSample, evSample] 2).2.2 =
       [evSample, evSample, evSample] ∧
     (getErrors [evSample, evSample, evSample] 2).1 =
       [evSample, evSample, evSample].length) :=
  ⟨by decide, c9_unbounded_append_log [evSample, evSample, evSample] 2 (by decide)⟩

/-- C2: for every run of non-empty 200 pages followed by the first
empty page, the fetch loop accumulates each page's tenders in order,
advances the page index once per page, and stops as a complete success:
all tenders harvested, no failed pages, no error events. -/
theorem c2_fetch_accumulates (tss : List (List Tender))
    (h : ∀ ts ∈ tss, ts ≠ []) :
    fetchLoop (tss.map okPage ++ [okPage []]) ⟨[], 0, [], []⟩ =
      .done tss.flatten [] [] := by
  rw [fetchLoop_okPages tss [okPage []] ⟨[], 0, [], []⟩ h]
  simp [fetchLoop, okPage]

/-- A sample raw tender with every field present and well-formed. -/
def sampleTender : Tender :=
  ⟨some "t1", some "Поставка оборудования", .items [some "Заказчик 1"],
   some "100000", some 15, some 1699990000000, some 1700600000000⟩

/-- Two full pages of 100 tenders each, the scenario named by C2. -/
def pages100 : List (List Tender) :=
  [List.replicate 100 sampleTender, List.replicate 100 sampleTender]

/-- C2 witness: with pages of 100, 100 and then 0 items the fetcher
returns exactly 200 records and an empty `failed_pages` list. -/
theorem c2_fetch_accumulates_witness :
    (∀ ts ∈ pages100, ts ≠ []) ∧
    pages100.flatten.length = 200 ∧
    fetchLoop (pages100.map okPage ++ [okPage []]) ⟨[], 0, [], []⟩ =
      .done pages100.flatten [] [] :=
  ⟨by decide, by decide, c2_fetch_accumulates pages100 (by decide)⟩

/-- C10: an HTTP 200 body that is a JSON object without the `tenders`
key is handled exactly like an empty page — `data.get("tenders", [])`
defaults to the empty list, so the loop takes the same step as for an
explicit empty list — and a run whose first page lacks the key returns
the `success` body with `added = 0`, no failed pages, no appended rows
and no error events. -/
theorem c10_missing_tenders_key :
    (∀ (rest : List PageResp) (st : FetchSt),
      fetchLoop (PageResp.http 200 (PageBody.json none) :: rest) st =
        fetchLoop (PageResp.http 200 (PageBody.json (some [])) :: rest) st) ∧
    (∀ (nowMs : Int) (attach : String → AttachResponse) (sheet : Option Sheet)
      (hf af : Bool),
      loadTenders ⟨nowMs, [PageResp.http 200 (PageBody.json none)], attach, sheet, hf, af⟩ =
        ⟨.emptySuccess 0 [], sheet, [], [], []⟩) := by
  constructor
  · intro rest st
    rfl
  · intro nowMs attach sheet hf af
    rfl

/-- C3: whenever some tender-list page returns HTTP 401 (here: after
any run of successful non-empty pages), `load_tenders` aborts at once
with the `Unauthorized` error body, appends no rows, leaves the
spreadsheet untouched, and records no per-run processing errors. -/
theorem c3_unauthorized_aborts (tss : List (List Tender)) (b : PageBody)
    (rest : List PageResp) (env : Env)
    (hpages : env.pages = tss.map okPage ++ PageResp.http 401 b :: rest)
    (h : ∀ ts ∈ tss, ts ≠ []) :
    (loadTenders env).response =
      .errorResp "Unauthorized" "Ошибка аутентификации. Проверьте API_TOKEN." ∧
    (loadTenders env).appended = [] ∧
    (loadTenders env).sheet = env.sheet ∧
    (loadTenders env).processingErrors = [] := by
  have hf : fetchLoop env.pages ⟨[], 0, [], []⟩ =
      .unauthorized ([] ++ [page401Ev]) := by
    rw [hpages, fetchLoop_okPages tss _ _ h]
    rfl
  unfold loadTenders
  rw [hf]
  exact ⟨rfl, rfl, rfl, rfl⟩

/-- An attachment oracle whose every request times out (and therefore
yields the empty attachment list). -/
def attachTimeoutOracle : String → AttachResponse := fun _ => .timeout

/-- C3 witness: a concrete run whose page 1 returns 401 after one
successful page. -/
def envC3 : Env :=
  ⟨0, [[sampleTender]].map okPage ++ PageResp.http 401 (PageBody.json none) :: [],
   attachTimeoutOracle, some ⟨[]⟩, false, false⟩

/-- C3 witness: the 401 abort evaluated on `envC3`. -/
theorem c3_unauthorized_aborts_witness :
    (∀ ts ∈ [[sampleTender]], ts ≠ []) ∧
    ((loadTenders envC3).response =
      .errorResp "Unauthorized" "Ошибка аутентификации. Проверьте API_TOKEN." ∧
     (loadTenders envC3).appended = [] ∧
     (loadTenders envC3).sheet = envC3.sheet ∧
     (loadTenders envC3).processingErrors = []) :=
  ⟨by decide,
   c3_unauthorized_aborts [[sampleTender]] (PageBody.json none) [] envC3 rfl (by decide)⟩

/-- C4: when a page returns HTTP 429 after a run of successful
non-empty pages, pagination stops early but the run carries on with the
tenders fetched so far: the response is a success reporting exactly
those tenders as added, one row per fetched tender is appended, the 429
event is recorded in the error log, the 429 page is not in
`failed_pages`, and no per-run processing error is recorded. -/
theorem c4_rate_limit_partial (tss : List (List Tender)) (b : PageBody)
    (rest : List PageResp) (env : Env) (s0 : Sheet)
    (hpages : env.pages = tss.map okPage ++ PageResp.http 429 b :: rest)
    (hne : ∀ ts ∈ tss, ts ≠ [])
    (hjoin : tss.flatten ≠ [])
    (hcust : ∀ t ∈ tss.flatten, t.customers ≠ CustomersField.notAList)
    (hsheet : env.sheet = some s0)
    (hhf : env.headerFails = false)
    (haf : env.appendFails = false) :
    (loadTenders env).response =
      .success tss.flatten.length tss.flatten.length 0 [] ∧
    (loadTenders env).appended.length = tss.flatten.length ∧
    page429Ev tss.length ∈ (loadTenders env).errorLog ∧
    (loadTenders env).processingErrors = [] := by
  have hf : fetchLoop env.pages ⟨[], 0, [], []⟩ =
      .done tss.flatten [] [page429Ev tss.length] := by
    rw [hpages, fetchLoop_okPages tss _ _ hne]
    simp only [fetchLoop]
    norm_num
  have hie : tss.flatten.isEmpty = false := by
    cases hj : tss.flatten with
    | nil => exact absurd hj hjoin
    | cons a l => rfl
  obtain ⟨h1, h2, h3, evs, h4⟩ := processBatch_facts env.attach
    (formatMs (env.nowMs + nskOffsetMs)) tss.flatten
    ⟨[], 0, [], [page429Ev tss.length]⟩ hcust
  simp only [loadTenders, hf, hie, Bool.false_eq_true, if_false, hsheet, hhf, haf,
    Bool.and_false]
  refine ⟨?_, ?_, ?_, ?_⟩
  · simp only [h1, h2, List.length_nil, Nat.zero_add]
  · simpa using h1
  · rw [h4]
    exact List.mem_append_left _ (List.mem_singleton.mpr rfl)
  · exact h2

/-- An attachment oracle returning one valid attachment for every
tender. -/
def attachPairOracle : String → AttachResponse :=
  fun _ => .http 200 (.jsonList [⟨some "Док 1", some "https://x/1"⟩])

/-- C4 witness environment: one successful page of one tender, then a
429. -/
def envC4 : Env :=
  ⟨0, [[sampleTender]].map okPage ++ PageResp.http 429 (PageBody.json none) :: [],
   attachPairOracle, some ⟨[]⟩, false, false⟩

/-- C4 witness: the 429 partial-result behaviour evaluated on
`envC4`. -/
theorem c4_rate_limit_partial_witness :
    (∀ ts ∈ [[sampleTender]], ts ≠ []) ∧
    [[sampleTender]].flatten ≠ [] ∧
    (∀ t ∈ [[sampleTender]].flatten, t.customers ≠ CustomersField.notAList) ∧
    ((loadTenders envC4).response =
      .success [[sampleTender]].flatten.length [[sampleTender]].flatten.length 0 [] ∧
     (loadTenders envC4).appended.length = [[sampleTender]].flatten.length ∧
     page429Ev [[sampleTender]].length ∈ (loadTenders envC4).errorLog ∧
     (loadTenders envC4).processingErrors = []) :=
  ⟨by decide, by decide, by decide,
   c4_rate_limit_partial [[sampleTender]] (PageBody.json none) [] envC4 ⟨[]⟩ rfl
     (by decide) (by decide) (by decide) rfl rfl rfl⟩

/-- C6: over any batch of tenders with well-formed `customers` fields
(and arbitrary, possibly uneven attachment counts), the `max_docs`
value accumulated by the processing loop equals the maximum attachment
count over the batch, and the header row `ensure_header` writes for it
— like the constructed header itself — has exactly `9 + 2 * max_docs`
columns. -/
theorem c6_header_width (attach : String → AttachResponse) (nowStr : String)
    (ts : List Tender) (s : Sheet)
    (h : ∀ t ∈ ts, t.customers ≠ CustomersField.notAList) :
    (ts.foldl (processTender attach nowStr) ⟨[], 0, [], []⟩).maxDocs =
      (ts.map (attCount attach)).foldl max 0 ∧
    (headerRow (ts.foldl (processTender attach nowStr) ⟨[], 0, [], []⟩).maxDocs).length =
      9 + 2 * (ts.foldl (processTender attach nowStr) ⟨[], 0, [], []⟩).maxDocs ∧
    ((ensureHeader s (ts.foldl (processTender attach nowStr)
        ⟨[], 0, [], []⟩).maxDocs).1.rows.head?.getD []).length =
      9 + 2 * (ts.foldl (processTender attach nowStr) ⟨[], 0, [], []⟩).maxDocs := by
  obtain ⟨-, -, h3, -⟩ := processBatch_facts attach nowStr ts ⟨[], 0, [], []⟩ h
  refine ⟨h3, headerRow_length _, ?_⟩
  rw [ensureHeader_first]
  exact headerRow_length _

/-- A second sample tender, with an unmapped placement code, a missing
publication timestamp and a zero close timestamp. -/
def sampleTender2 : Tender :=
  ⟨some "t2", some "Ремонт", .items [some "Заказчик 2", none], some "5000",
   some 99, none, some 0⟩

/-- An attachment oracle with uneven counts: three attachments for
tender `t2`, one for everything else. -/
def attachVaryOracle : String → AttachResponse :=
  fun tid =>
    if tid = "t2" then
      .http 200 (.jsonList
        [⟨some "Д1", some "u1"⟩, ⟨some "Д2", some "u2"⟩, ⟨some "Д3", some "u3"⟩])
    else .http 200 (.jsonList [⟨some "Д1", some "u1"⟩])

/-- C6 witness: a two-tender batch with attachment counts 1 and 3
yields `max_docs = 3` and a 15-column header. -/
theorem c6_header_width_witness :
    (∀ t ∈ [sampleTender, sampleTender2], t.customers ≠ CustomersField.notAList) ∧
    (([sampleTender, sampleTender2].foldl
        (processTender attachVaryOracle "n") ⟨[], 0, [], []⟩).maxDocs =
      ([sampleTender, sampleTender2].map (attCount attachVaryOracle)).foldl max 0 ∧
     (headerRow ([sampleTender, sampleTender2].foldl
        (processTender attachVaryOracle "n") ⟨[], 0, [], []⟩).maxDocs).length =
      9 + 2 * ([sampleTender, sampleTender2].foldl
        (processTender attachVaryOracle "n") ⟨[], 0, [], []⟩).maxDocs ∧
     ((ensureHeader ⟨[]⟩ ([sampleTender, sampleTender2].foldl
        (processTender attachVaryOracle "n")
        ⟨[], 0, [], []⟩).maxDocs).1.rows.head?.getD []).length =
      9 + 2 * ([sampleTender, sampleTender2].foldl
        (processTender attachVaryOracle "n") ⟨[], 0, [], []⟩).maxDocs) ∧
    ([sampleTender, sampleTender2].map (attCount attachVaryOracle)) = [1, 3] ∧
    ([sampleTender, sampleTender2].foldl
      (processTender attachVaryOracle "n") ⟨[], 0, [], []⟩).maxDocs = 3 :=
  ⟨by decide,
   c6_header_width attachVaryOracle "n" [sampleTender, sampleTender2] ⟨[]⟩ (by decide),
   by decide, by decide⟩

/-- An attachment oracle whose every request gets HTTP 500 back. -/
def attach500Oracle : String → AttachResponse := fun _ => .http 500 .emptyText

/-- C5 counterexample environment: one tender fetched successfully,
every attachment request answered with HTTP 500. -/
def envC5 : Env :=
  ⟨0, [okPage [sampleTender], okPage []], attach500Oracle, some ⟨[]⟩, false, false⟩

/-- C5, counterexample.  The claim says an HTTP 500 attachment fetch
appends one entry to the per-run processing-error list.  It does not:
in this concrete run the transformed row exists, the 500 event lands in
the process-wide error log, but `processing_errors` stays empty —
`fetch_attachments` returns `[]` instead of raising, so the per-tender
exception handler that feeds `processing_errors` never fires. -/
theorem c5_processing_errors_cex :
    (loadTenders envC5).appended.length = 1 ∧
    (loadTenders envC5).processingErrors.length = 0 ∧
    ¬ (loadTenders envC5).processingErrors.length = 1 ∧
    attachStatusEv "t1" 500 ∈ (loadTenders envC5).errorLog :=
  ⟨by decide, by decide, by decide, by decide⟩

/-- C5, amended.  `fetch_attachments` never raises and every response
other than a 200 carrying a JSON list resolves to the empty attachment
list; consequently, when the attachment fetch for a tender returns
HTTP 500, the transformed row for that tender still exists with zero
attachment columns (9 columns total) and one entry is appended to the
process-wide error log, while the per-run processing-error list stays
empty. -/
theorem c5_attachment_failure_isolated :
    (∀ (tenderId : String) (r : AttachResponse),
      (∀ items, r ≠ .http 200 (.jsonList items)) →
      (fetchAttachments tenderId r).1 = []) ∧
    (∀ (t : Tender) (nowMs : Int) (b : AttachBody) (s0 : Sheet),
      t.customers ≠ CustomersField.notAList →
      (loadTenders ⟨nowMs, [okPage [t], okPage []],
          fun _ => AttachResponse.http 500 b, some s0, false, false⟩).appended =
        [rowOf (formatMs (nowMs + nskOffsetMs)) (t.id.getD "unknown") t []] ∧
      (rowOf (formatMs (nowMs + nskOffsetMs)) (t.id.getD "unknown") t []).length = 9 ∧
      (loadTenders ⟨nowMs, [okPage [t], okPage []],
          fun _ => AttachResponse.http 500 b, some s0, false, false⟩).processingErrors = [] ∧
      (loadTenders ⟨nowMs, [okPage [t], okPage []],
          fun _ => AttachResponse.http 500 b, some s0, false, false⟩).response =
        .success 1 1 0 [] ∧
      attachStatusEv (t.id.getD "unknown") 500 ∈
        (loadTenders ⟨nowMs, [okPage [t], okPage []],
          fun _ => AttachResponse.http 500 b, some s0, false, false⟩).errorLog) := by
  constructor
  · intro tid r h
    cases r with
    | timeout => rfl
    | connError => rfl
    | http status body =>
      by_cases h401 : status = 401
      · subst h401; rfl
      · by_cases h429 : status = 429
        · subst h429; rfl
        · by_cases h200 : status = 200
          · subst h200
            cases body with
            | emptyText => rfl
            | jsonNonList => rfl
            | jsonInvalid => rfl
            | jsonList items => exact absurd rfl (h items)
          · simp only [fetchAttachments]
            rw [if_neg h401, if_neg h429, if_pos h200]
  · intro t nowMs b s0 hcust
    have hfetch : fetchLoop [okPage [t], okPage []] ⟨[], 0, [], []⟩ =
        .done [t] [] [] := rfl
    have hstep : [t].foldl (processTender (fun _ => AttachResponse.http 500 b)
        (formatMs (nowMs + nskOffsetMs))) ⟨[], 0, [], []⟩ =
        ⟨[rowOf (formatMs (nowMs + nskOffsetMs)) (t.id.getD "unknown") t []], 0, [],
         [attachStatusEv (t.id.getD "unknown") 500]⟩ := by
      simp only [List.foldl_cons, List.foldl_nil]
      rw [processTender, if_neg hcust]
      rfl
    have hrun : loadTenders ⟨nowMs, [okPage [t], okPage []],
        fun _ => AttachResponse.http 500 b, some s0, false, false⟩ =
        ⟨.success 1 1 0 [],
         some ⟨(ensureHeader s0 0).1.rows ++
           [rowOf (formatMs (nowMs + nskOffsetMs)) (t.id.getD "unknown") t []]⟩,
         [rowOf (formatMs (nowMs + nskOffsetMs)) (t.id.getD "unknown") t []],
         [attachStatusEv (t.id.getD "unknown") 500],
         []⟩ := by
      simp only [loadTenders, hfetch, hstep, List.isEmpty_cons, Bool.false_eq_true,
        if_false, Bool.and_false, List.length_cons, List.length_nil]
    refine ⟨?_, ?_, ?_, ?_, ?_⟩
    · rw [hrun]
    · simp [rowOf]
    · rw [hrun]
    · rw [hrun]
    · rw [hrun]
      exact List.mem_singleton.mpr rfl

/-- C5 witness: the amended statement evaluated at a timed-out
attachment request and at the concrete HTTP 500 pipeline scenario for
`sampleTender`. -/
theorem c5_attachment_failure_isolated_witness :
    (∀ items, AttachResponse.timeout ≠ AttachResponse.http 200 (AttachBody.jsonList items)) ∧
    (fetchAttachments "t1" AttachResponse.timeout).1 = [] ∧
    sampleTender.customers ≠ CustomersField.notAList ∧
    ((loadTenders ⟨0, [okPage [sampleTender], okPage []],
        fun _ => AttachResponse.http 500 AttachBody.emptyText, some ⟨[]⟩,
        false, false⟩).appended =
      [rowOf (formatMs (0 + nskOffsetMs)) (sampleTender.id.getD "unknown") sampleTender []] ∧
     (rowOf (formatMs (0 + nskOffsetMs)) (sampleTender.id.getD "unknown") sampleTender []).length = 9 ∧
     (loadTenders ⟨0, [okPage [sampleTender], okPage []],
         fun _ => AttachResponse.http 500 AttachBody.emptyText, some ⟨[]⟩,
         false, false⟩).processingErrors = [] ∧
     (loadTenders ⟨0, [okPage [sampleTender], okPage []],
         fun _ => AttachResponse.http 500 AttachBody.emptyText, some ⟨[]⟩,
         false, false⟩).response = .success 1 1 0 [] ∧
     attachStatusEv (sampleTender.id.getD "unknown") 500 ∈
       (loadTenders ⟨0, [okPage [sampleTender], okPage []],
         fun _ => AttachResponse.http 500 AttachBody.emptyText, some ⟨[]⟩,
         false, false⟩).errorLog) :=
  ⟨fun _ h => AttachResponse.noConfusion h,
   c5_attachment_failure_isolated.1 "t1" AttachResponse.timeout
     (fun _ h => AttachResponse.noConfusion h),
   by decide,
   c5_attachment_failure_isolated.2 sampleTender 0 AttachBody.emptyText ⟨[]⟩ (by decide)⟩

/-- C8: for every download whose chunk stream cumulatively exceeds the
configured size cap — whatever `content-length` the HEAD pre-flight
saw, since its 413 raise is swallowed and the GET always streams —
`download_file_with_limit` aborts with the 413 `HTTPException` and a
`File Size Error` event recording the cumulative size at the crossing
point, no bytes are returned, and the `/parse-doc` request fails with
the same 413 — no partial text reaches the caller. -/
theorem c8_size_cap_mid_stream (url : String) (headSize : Option Nat)
    (chunks : List (List Nat)) (maxSize : Nat)
    (parseBytes : List Nat → Except String String)
    (hsize : maxSize < chunks.flatten.length) :
    ∃ downloaded,
      maxSize < downloaded ∧
      downloadFileWithLimit headSize (.stream chunks) maxSize =
        .httpError 413 "Файл слишком большой"
          (headPreflightLog headSize maxSize ++ [sizeStreamEv downloaded maxSize]) ∧
      (sizeStreamEv downloaded maxSize).errorType = .fileSizeError ∧
      parseDocEndpoint url headSize (.stream chunks) maxSize parseBytes =
        .httpError 413 "Файл слишком большой" := by
  obtain ⟨d, hd, hlt⟩ := streamChunks_exceeds maxSize chunks 0 []
    (Nat.zero_le _) (by simpa using hsize)
  have hdl : downloadFileWithLimit headSize (.stream chunks) maxSize =
      .httpError 413 "Файл слишком большой"
        (headPreflightLog headSize maxSize ++ [sizeStreamEv d maxSize]) := by
    simp only [downloadFileWithLimit, downloadStream, hd]
  refine ⟨d, hlt, hdl, rfl, ?_⟩
  simp only [parseDocEndpoint, hdl]

/-- C8 witness: a 4-byte cap, a HEAD pre-flight that even advertised
100 bytes (and still did not stop the GET), and chunks of 3 and 2
bytes; the stream crosses the cap at 5 bytes and the parse request
fails with 413. -/
theorem c8_size_cap_mid_stream_witness :
    4 < ([[1, 2, 3], [4, 5]] : List (List Nat)).flatten.length ∧
    (∃ downloaded,
      4 < downloaded ∧
      downloadFileWithLimit (some 100) (.stream [[1, 2, 3], [4, 5]]) 4 =
        .httpError 413 "Файл слишком большой"
          (headPreflightLog (some 100) 4 ++ [sizeStreamEv downloaded 4]) ∧
      (sizeStreamEv downloaded 4).errorType = .fileSizeError ∧
      parseDocEndpoint "https://x/F.DOCX" (some 100) (.stream [[1, 2, 3], [4, 5]]) 4
          (fun _ => .ok "text") =
        .httpError 413 "Файл слишком большой") :=
  ⟨by decide,
   c8_size_cap_mid_stream "https://x/F.DOCX" (some 100) [[1, 2, 3], [4, 5]] 4
     (fun _ => .ok "text") (by decide)⟩

end TenderAPI
